import Mathlib

/-!
# KVCache Hit Rate Calculator — formal model

A shallow embedding of `kvcache_calculator.py` (the calculation engine of the
`kvcache-hit-rate-calculator` repository).  Python floats are modelled as
rationals (`ℚ`), Python ints as `ℤ`; Python's `int(...)` conversion of a float
is truncation toward zero; Python dict results are modelled either as Lean
structures (when the key set is constant across branches) or as literal
association lists `List (String × PyVal)` (when the key set matters).
-/

namespace KVCalc

/-- Truncation of a rational toward zero, the semantics of Python's `int(x)`
for a float `x`. -/
def pyint (q : ℚ) : ℤ := Int.tdiv q.num (q.den : ℤ)

/-- The `ModelDtype` enum from the source: model weight data types. -/
inductive ModelDtype where
  | FP16 | FP32 | BF16 | FP8 | INT8 | INT4
deriving DecidableEq

/-- The `KVCacheDtype` enum from the source: KV-cache data types (no INT4). -/
inductive KVCacheDtype where
  | FP16 | FP32 | BF16 | FP8 | INT8
deriving DecidableEq

/-- A key of the calculator's `dtype_bytes` dictionary: the dictionary mixes
members of both enums (Python enum members of distinct enums are distinct
dictionary keys even when their values coincide). -/
inductive DtypeKey where
  | model (d : ModelDtype)
  | kv (d : KVCacheDtype)
deriving DecidableEq

/-- The `ModelConfig` dataclass: model configuration parameters.  The generated
dataclass constructor assigns the fields and performs no validation. -/
structure ModelConfig where
  num_layers : ℤ
  num_attention_heads : ℤ
  num_kv_heads : ℤ
  head_dim : ℤ
  model_dtype : ModelDtype
  kvcache_dtype : KVCacheDtype
  model_size_gb : ℚ
deriving DecidableEq

/-- The `SystemConfig` dataclass: available memory in GB. -/
structure SystemConfig where
  available_memory_gb : ℚ
deriving DecidableEq

/-- The `ConversationPattern` dataclass: conversation pattern parameters.  The
generated dataclass constructor assigns the fields and performs no
validation. -/
structure ConversationPattern where
  avg_conversation_length : ℚ
  conversation_arrival_rate : ℚ
  within_conversation_interval : ℚ
  avg_sequence_length : ℤ
deriving DecidableEq

/-- Construction of a `ConversationPattern` as Python performs it, with the
possibility of raising modelled by `Except`: the `@dataclass`-generated
`__init__` only assigns the four fields and contains no check, so
construction always succeeds. -/
def ConversationPattern.construct (avg_conversation_length : ℚ)
    (conversation_arrival_rate : ℚ) (within_conversation_interval : ℚ)
    (avg_sequence_length : ℤ) : Except String ConversationPattern :=
  .ok ⟨avg_conversation_length, conversation_arrival_rate,
       within_conversation_interval, avg_sequence_length⟩

/-- Construction of a `ModelConfig` as Python performs it, with the
possibility of raising modelled by `Except`: the `@dataclass`-generated
`__init__` only assigns the fields and contains no check, so construction
always succeeds. -/
def ModelConfig.construct (num_layers num_attention_heads num_kv_heads
    head_dim : ℤ) (model_dtype : ModelDtype) (kvcache_dtype : KVCacheDtype)
    (model_size_gb : ℚ) : Except String ModelConfig :=
  .ok ⟨num_layers, num_attention_heads, num_kv_heads, head_dim,
       model_dtype, kvcache_dtype, model_size_gb⟩

/-- The `self.dtype_bytes` dictionary built in `KVCacheCalculator.__init__`,
in insertion order, widths in bytes per element (`0.5` for INT4). -/
def dtype_bytes : List (DtypeKey × ℚ) :=
  [(.model .FP32, 4), (.model .FP16, 2), (.model .BF16, 2),
   (.model .FP8, 1), (.model .INT8, 1), (.model .INT4, 1/2),
   (.kv .FP32, 4), (.kv .FP16, 2), (.kv .BF16, 2),
   (.kv .FP8, 1), (.kv .INT8, 1)]

/-- Python dictionary lookup `d[k]` on an association list: `some` width when
the key is present, `none` for the `KeyError` case. -/
def dictGet : List (DtypeKey × ℚ) → DtypeKey → Option ℚ
  | [], _ => none
  | (k', v) :: rest, k => if k = k' then some v else dictGet rest k

/-- Method `calculate_kvcache_memory_per_token` with the dictionary lookup's
partiality kept explicit: `none` is Python's `KeyError` branch.
`Memory = 2 (K+V) * num_layers * num_kv_heads * head_dim * dtype_bytes`. -/
def kvcache_memory_per_token? (m : ModelConfig) : Option ℚ :=
  (dictGet dtype_bytes (.kv m.kvcache_dtype)).map fun bytes_per_element =>
    2 * (m.num_layers : ℚ) * (m.num_kv_heads : ℚ) * (m.head_dim : ℚ) *
      bytes_per_element

/-- Method `KVCacheCalculator.calculate_kvcache_memory_per_token`.  The total
version used by the rest of the engine; the default `0` is never taken
because the dictionary contains every `KVCacheDtype` member (proved in
the C10 theorem below). -/
def calculate_kvcache_memory_per_token (m : ModelConfig) : ℚ :=
  (kvcache_memory_per_token? m).getD 0

/-- Method `KVCacheCalculator.calculate_derived_qps`:
`QPS = conversation arrival rate × average conversation length`. -/
def calculate_derived_qps (c : ConversationPattern) : ℚ :=
  c.conversation_arrival_rate * c.avg_conversation_length

/-- Method `KVCacheCalculator.calculate_max_cached_tokens`:
`available_for_cache = available_memory_gb * 1024**3 - model_size_gb *
1024**3 * 1.2`; `0` when that is `≤ 0`, otherwise
`int(available_for_cache / memory_per_token)`. -/
def calculate_max_cached_tokens (m : ModelConfig) (s : SystemConfig) : ℤ :=
  let memory_per_token := calculate_kvcache_memory_per_token m
  let available_for_cache :=
    s.available_memory_gb * 1024 ^ 3 - m.model_size_gb * 1024 ^ 3 * (12/10)
  if available_for_cache ≤ 0 then 0
  else pyint (available_for_cache / memory_per_token)

/-- The result dictionary of `calculate_conversation_hit_rate`: both branches
of the source return exactly the keys `hit_rate`, `avg_cached_conversations`,
`cache_utilization`, `max_cached_tokens`, `active_conversations`, so the
dictionary is modelled as a structure. -/
structure HitRateResult where
  hit_rate : ℚ
  avg_cached_conversations : ℚ
  cache_utilization : ℚ
  max_cached_tokens : ℤ
  active_conversations : ℚ
deriving DecidableEq

/-- Method `KVCacheCalculator.calculate_conversation_hit_rate`. -/
def calculate_conversation_hit_rate (m : ModelConfig) (s : SystemConfig)
    (c : ConversationPattern) : HitRateResult :=
  let max_cached_tokens := calculate_max_cached_tokens m s
  if max_cached_tokens ≤ 0 then
    { hit_rate := 0, avg_cached_conversations := 0, cache_utilization := 0,
      max_cached_tokens := 0, active_conversations := 0 }
  else
    let avg_tokens_per_conversation :=
      c.avg_conversation_length * (c.avg_sequence_length : ℚ)
    let max_cached_conversations :=
      (max_cached_tokens : ℚ) / avg_tokens_per_conversation
    let conversation_lifetime :=
      c.avg_conversation_length * c.within_conversation_interval
    let active_conversations :=
      c.conversation_arrival_rate * conversation_lifetime
    let hit_rate :=
      if active_conversations ≤ max_cached_conversations then
        1 - 1 / c.avg_conversation_length
      else
        (1 - 1 / c.avg_conversation_length) *
          (max_cached_conversations / active_conversations)
    let cache_utilization :=
      if 0 < max_cached_conversations then
        min (active_conversations / max_cached_conversations) 1
      else 0
    { hit_rate := max 0 (min 1 hit_rate),
      avg_cached_conversations :=
        min active_conversations max_cached_conversations,
      cache_utilization := cache_utilization,
      max_cached_tokens := max_cached_tokens,
      active_conversations := active_conversations }

/-- The result dictionary of `calculate_detailed_metrics`: the five
`basic_metrics` keys spread first, then the seven added keys; the key set is
the same on every path, so the dictionary is modelled as a structure. -/
structure DetailedMetrics where
  hit_rate : ℚ
  avg_cached_conversations : ℚ
  cache_utilization : ℚ
  max_cached_tokens : ℤ
  active_conversations : ℚ
  memory_per_token_bytes : ℚ
  model_memory_gb : ℚ
  cache_memory_gb : ℚ
  derived_qps : ℚ
  tokens_per_second : ℚ
  cache_hits_per_second : ℚ
  memory_efficiency : ℚ
deriving DecidableEq

/-- Method `KVCacheCalculator.calculate_detailed_metrics`. -/
def calculate_detailed_metrics (m : ModelConfig) (s : SystemConfig)
    (c : ConversationPattern) : DetailedMetrics :=
  let basic_metrics := calculate_conversation_hit_rate m s c
  let memory_per_token := calculate_kvcache_memory_per_token m
  let model_memory_gb := m.model_size_gb * (12/10)
  let derived_qps := calculate_derived_qps c
  let tokens_per_second := derived_qps * (c.avg_sequence_length : ℚ)
  let cache_hits_per_second := tokens_per_second * basic_metrics.hit_rate
  { hit_rate := basic_metrics.hit_rate,
    avg_cached_conversations := basic_metrics.avg_cached_conversations,
    cache_utilization := basic_metrics.cache_utilization,
    max_cached_tokens := basic_metrics.max_cached_tokens,
    active_conversations := basic_metrics.active_conversations,
    memory_per_token_bytes := memory_per_token,
    model_memory_gb := model_memory_gb,
    cache_memory_gb :=
      (basic_metrics.max_cached_tokens : ℚ) * memory_per_token / 1024 ^ 3,
    derived_qps := derived_qps,
    tokens_per_second := tokens_per_second,
    cache_hits_per_second := cache_hits_per_second,
    memory_efficiency := basic_metrics.cache_utilization }

/-- A Python dictionary value in a result mapping: a number or a boolean
(`achievable` is a boolean). -/
inductive PyVal where
  | num (q : ℚ)
  | bool (b : Bool)
deriving DecidableEq

/-- The dictionary returned by `calculate_detailed_metrics`, keys in the
source's insertion order, for claims about the field set. -/
def detailed_metrics_dict (m : ModelConfig) (s : SystemConfig)
    (c : ConversationPattern) : List (String × PyVal) :=
  let d := calculate_detailed_metrics m s c
  [("hit_rate", .num d.hit_rate),
   ("avg_cached_conversations", .num d.avg_cached_conversations),
   ("cache_utilization", .num d.cache_utilization),
   ("max_cached_tokens", .num (d.max_cached_tokens : ℚ)),
   ("active_conversations", .num d.active_conversations),
   ("memory_per_token_bytes", .num d.memory_per_token_bytes),
   ("model_memory_gb", .num d.model_memory_gb),
   ("cache_memory_gb", .num d.cache_memory_gb),
   ("derived_qps", .num d.derived_qps),
   ("tokens_per_second", .num d.tokens_per_second),
   ("cache_hits_per_second", .num d.cache_hits_per_second),
   ("memory_efficiency", .num d.memory_efficiency)]

/-- Method `KVCacheCalculator.optimize_memory_allocation`, returned as the literal
dictionary because the two branches of the source return different key
sets. -/
def optimize_memory_allocation (m : ModelConfig) (s : SystemConfig)
    (c : ConversationPattern) (target_hit_rate : ℚ) :
    List (String × PyVal) :=
  let current_metrics := calculate_detailed_metrics m s c
  if target_hit_rate ≤ current_metrics.hit_rate then
    [("recommended_memory_gb", .num s.available_memory_gb),
     ("current_hit_rate", .num current_metrics.hit_rate),
     ("achievable", .bool true)]
  else
    let memory_per_token := calculate_kvcache_memory_per_token m
    let avg_tokens_per_conversation :=
      c.avg_conversation_length * (c.avg_sequence_length : ℚ)
    let conversation_lifetime :=
      c.avg_conversation_length * c.within_conversation_interval
    let active_conversations :=
      c.conversation_arrival_rate * conversation_lifetime
    let required_cached_conversations :=
      active_conversations * target_hit_rate
    let required_tokens :=
      required_cached_conversations * avg_tokens_per_conversation
    let required_cache_memory := required_tokens * memory_per_token / 1024 ^ 3
    let required_total_memory :=
      required_cache_memory + m.model_size_gb * (12/10)
    [("recommended_memory_gb", .num required_total_memory),
     ("current_hit_rate", .num current_metrics.hit_rate),
     ("target_hit_rate", .num target_hit_rate),
     ("additional_memory_needed_gb",
       .num (max 0 (required_total_memory - s.available_memory_gb))),
     ("achievable",
       .bool (decide (required_total_memory ≤ s.available_memory_gb * 2)))]

end KVCalc

namespace KVCalc

/-- Width in bytes of each KV-cache dtype as the specification's table states
it (FP32 → 4, FP16 → 2, BF16 → 2, FP8 → 1, INT8 → 1); used to compare the
engine's dictionary lookup against the spec's table. -/
def kvWidth : KVCacheDtype → ℚ
  | .FP32 => 4
  | .FP16 => 2
  | .BF16 => 2
  | .FP8 => 1
  | .INT8 => 1

/-- Example model configuration (Llama3-8B-like geometry, small weights). -/
def exM : ModelConfig := ⟨32, 32, 32, 128, .FP16, .FP16, 10⟩

/-- Example system configuration: 20 GB available. -/
def exS : SystemConfig := ⟨20⟩

/-- Example conversation pattern: 10 rounds, 1 conversation/s, 1 s interval,
100 tokens per request. -/
def exP : ConversationPattern := ⟨10, 1, 1, 100⟩

/-- Memory-starved model configuration (64 GB weights). -/
def starvedM : ModelConfig := ⟨32, 32, 32, 128, .FP16, .FP16, 64⟩

/-- Memory-starved system configuration: 60 GB < 64 × 1.2 GB. -/
def starvedS : SystemConfig := ⟨60⟩

end KVCalc

namespace KVCalc

/-- Evaluation of the per-token memory formula at an FP16 cache dtype. -/
lemma memory_per_token_FP16 (nl nah nkh hd : ℤ) (md : ModelDtype) (msz : ℚ) :
    calculate_kvcache_memory_per_token ⟨nl, nah, nkh, hd, md, .FP16, msz⟩ =
      2 * (nl : ℚ) * (nkh : ℚ) * (hd : ℚ) * 2 := rfl

/-- Evaluation of `calculate_max_cached_tokens` on the example
configuration: `(20 − 10 × 1.2) × 2^30 / 524288 = 16384`. -/
lemma max_cached_tokens_exM_exS : calculate_max_cached_tokens exM exS = 16384 := by
  show calculate_max_cached_tokens ⟨32, 32, 32, 128, .FP16, .FP16, 10⟩ ⟨20⟩ = 16384
  simp only [calculate_max_cached_tokens, memory_per_token_FP16]
  norm_num [pyint]

/-- Claim C2: for every Model Geometry, `calculate_kvcache_memory_per_token`
returns exactly `2 * num_layers * num_kv_heads * head_dim *
width(kvcache_dtype)`; in particular layers=32, kv_heads=32, head_dim=128,
width 2 gives 524288, and layers=40, kv_heads=8, head_dim=128, width 2 gives
163840. -/
theorem C2_memory_per_token_formula :
    (∀ m : ModelConfig, calculate_kvcache_memory_per_token m =
      2 * (m.num_layers : ℚ) * (m.num_kv_heads : ℚ) * (m.head_dim : ℚ) *
        kvWidth m.kvcache_dtype) ∧
    calculate_kvcache_memory_per_token ⟨32, 32, 32, 128, .FP16, .FP16, 16⟩ =
      524288 ∧
    calculate_kvcache_memory_per_token ⟨40, 32, 8, 128, .FP16, .FP16, 48⟩ =
      163840 := by
  refine ⟨fun m => ?_, by rw [memory_per_token_FP16]; norm_num,
    by rw [memory_per_token_FP16]; norm_num⟩
  obtain ⟨nl, nah, nkh, hd, md, kd, ms⟩ := m
  cases kd <;> rfl

/-- Claim C6: `calculate_derived_qps` returns
`conversation_arrival_rate * avg_conversation_length` (so arrival 2.0 and
length 5.0 give exactly 10.0), and `calculate_detailed_metrics` reports
`tokens_per_second = derived_qps * avg_sequence_length` and
`cache_hits_per_second = tokens_per_second * hit_rate`. -/
theorem C6_derived_qps_and_throughput :
    (∀ c : ConversationPattern, calculate_derived_qps c =
      c.conversation_arrival_rate * c.avg_conversation_length) ∧
    calculate_derived_qps ⟨5, 2, 30, 1000⟩ = 10 ∧
    (∀ (m : ModelConfig) (s : SystemConfig) (c : ConversationPattern),
      (calculate_detailed_metrics m s c).tokens_per_second =
        calculate_derived_qps c * (c.avg_sequence_length : ℚ) ∧
      (calculate_detailed_metrics m s c).cache_hits_per_second =
        (calculate_detailed_metrics m s c).tokens_per_second *
          (calculate_detailed_metrics m s c).hit_rate) :=
  ⟨fun _ => rfl, by norm_num [calculate_derived_qps], fun _ _ _ => ⟨rfl, rfl⟩⟩

/-- Claim C10: the `dtype_bytes` lookup misses exactly the keys absent from
the table; the table has an entry for every KV-cache dtype with the widths
FP32 → 4, FP16 → 2, BF16 → 2, FP8 → 1, INT8 → 1 (in fact for every key of
either enum), so `calculate_kvcache_memory_per_token` never reaches its
`KeyError` branch: the `Option`-level computation is `some` on every
well-typed Model Geometry. -/
theorem C10_dtype_lookup_never_fails :
    (∀ k : DtypeKey, dictGet dtype_bytes k = none ↔
      k ∉ dtype_bytes.map Prod.fst) ∧
    (∀ d : KVCacheDtype, dictGet dtype_bytes (.kv d) = some (kvWidth d)) ∧
    (∀ m : ModelConfig, kvcache_memory_per_token? m =
      some (calculate_kvcache_memory_per_token m)) := by
  refine ⟨fun k => ?_, fun d => ?_, fun m => ?_⟩
  · rcases k with d | d <;> cases d <;> decide
  · cases d <;> rfl
  · obtain ⟨nl, nah, nkh, hd, md, kd, ms⟩ := m
    cases kd <;> rfl

/-- Claim C8 counterexample: constructing a `ConversationPattern` with
`avg_conversation_length = 0`, and a `ModelConfig` with zero counts and zero
model size, both succeed (return `.ok`) instead of failing with a validation
error: the dataclass constructors perform no validation. -/
theorem C8_counterexample_construction_succeeds :
    ConversationPattern.construct 0 1 1 1 = .ok ⟨0, 1, 1, 1⟩ ∧
    ModelConfig.construct 0 0 0 0 .FP16 .FP16 0 =
      .ok ⟨0, 0, 0, 0, .FP16, .FP16, 0⟩ :=
  ⟨rfl, rfl⟩

/-- Claim C8 (amended): construction of the Traffic Pattern and Model
Geometry records never fails, whatever the field values (including
`avg_conversation_length = 0` and non-positive geometry): the generated
dataclass constructors only assign fields and validate nothing. -/
theorem C8_construction_never_validates :
    ∀ (L arrival interval : ℚ) (seq nl nah nkh hd : ℤ)
      (md : ModelDtype) (kd : KVCacheDtype) (msz : ℚ),
      ConversationPattern.construct L arrival interval seq =
        .ok ⟨L, arrival, interval, seq⟩ ∧
      ModelConfig.construct nl nah nkh hd md kd msz =
        .ok ⟨nl, nah, nkh, hd, md, kd, msz⟩ :=
  fun _ _ _ _ _ _ _ _ _ _ _ => ⟨rfl, rfl⟩

end KVCalc

namespace KVCalc

/-- Evaluation of the example scenario's hit rate:
`active = 10 ≤ 16384/1000`, so the intra-conversation rate `1 − 1/10`. -/
lemma hit_rate_eval_ex :
    (calculate_conversation_hit_rate exM exS exP).hit_rate = 9/10 := by
  simp only [calculate_conversation_hit_rate, max_cached_tokens_exM_exS]
  norm_num [exP, min_def, max_def]

/-- The detailed metrics report the basic hit rate unchanged. -/
lemma detailed_hit_rate_eval_ex :
    (calculate_detailed_metrics exM exS exP).hit_rate = 9/10 :=
  hit_rate_eval_ex

/-- Claim C5: whenever the currently computed hit rate is at or above the
target, `optimize_memory_allocation` returns
`recommended_memory_gb = available_memory_gb` and `achievable = true` (the
returned dictionary is exactly the early-return one). -/
theorem C5_target_already_met (m : ModelConfig) (s : SystemConfig)
    (c : ConversationPattern) (t : ℚ)
    (h : t ≤ (calculate_detailed_metrics m s c).hit_rate) :
    optimize_memory_allocation m s c t =
      [("recommended_memory_gb", .num s.available_memory_gb),
       ("current_hit_rate", .num (calculate_detailed_metrics m s c).hit_rate),
       ("achievable", .bool true)] := by
  simp only [optimize_memory_allocation]
  rw [if_pos h]

/-- Claim C5 witness: on the example configuration the current hit rate is
9/10 ≥ 1/2, and the optimizer recommends the configured 20 GB unchanged. -/
theorem C5_witness :
    optimize_memory_allocation exM exS exP (1/2) =
      [("recommended_memory_gb", PyVal.num 20),
       ("current_hit_rate", PyVal.num (9/10)),
       ("achievable", PyVal.bool true)] := by
  rw [C5_target_already_met exM exS exP (1/2)
    (by rw [detailed_hit_rate_eval_ex]; norm_num)]
  rw [detailed_hit_rate_eval_ex]
  norm_num [exS]

/-- Claim C9 counterexample: on the example configuration with target 0 the
current hit rate (9/10) meets the target, and the dictionary returned by
`optimize_memory_allocation` has no `target_hit_rate` and no
`additional_memory_needed_gb` field, contradicting the claim that those
fields are present for every input. -/
theorem C9_counterexample_missing_fields :
    List.lookup "target_hit_rate" (optimize_memory_allocation exM exS exP 0) =
      none ∧
    List.lookup "additional_memory_needed_gb"
      (optimize_memory_allocation exM exS exP 0) = none := by
  have h : (0:ℚ) ≤ (calculate_detailed_metrics exM exS exP).hit_rate := by
    rw [detailed_hit_rate_eval_ex]; norm_num
  simp only [optimize_memory_allocation]
  rw [if_pos h]
  constructor <;> rfl

/-- Claim C9 (amended): `calculate_detailed_metrics` always returns exactly
the twelve documented fields; `optimize_memory_allocation` returns all five
documented fields when the current hit rate is strictly below the target,
but only `recommended_memory_gb`, `current_hit_rate` and `achievable` when
the current hit rate meets the target. -/
theorem C9_result_field_sets :
    (∀ (m : ModelConfig) (s : SystemConfig) (c : ConversationPattern),
      (detailed_metrics_dict m s c).map Prod.fst =
        ["hit_rate", "avg_cached_conversations", "cache_utilization",
         "max_cached_tokens", "active_conversations",
         "memory_per_token_bytes", "model_memory_gb", "cache_memory_gb",
         "derived_qps", "tokens_per_second", "cache_hits_per_second",
         "memory_efficiency"]) ∧
    (∀ (m : ModelConfig) (s : SystemConfig) (c : ConversationPattern) (t : ℚ),
      ((calculate_detailed_metrics m s c).hit_rate < t →
        (optimize_memory_allocation m s c t).map Prod.fst =
          ["recommended_memory_gb", "current_hit_rate", "target_hit_rate",
           "additional_memory_needed_gb", "achievable"]) ∧
      (t ≤ (calculate_detailed_metrics m s c).hit_rate →
        (optimize_memory_allocation m s c t).map Prod.fst =
          ["recommended_memory_gb", "current_hit_rate", "achievable"])) := by
  refine ⟨fun m s c => rfl, fun m s c t => ⟨fun h => ?_, fun h => ?_⟩⟩
  · simp only [optimize_memory_allocation]
    rw [if_neg (not_le.mpr h)]
    rfl
  · simp only [optimize_memory_allocation]
    rw [if_pos h]
    rfl

/-- Claim C9 witness: the example configuration exercises both optimizer
branches (target 95/100 above the 9/10 hit rate, target 0 below it). -/
theorem C9_witness :
    (optimize_memory_allocation exM exS exP (95/100)).map Prod.fst =
      ["recommended_memory_gb", "current_hit_rate", "target_hit_rate",
       "additional_memory_needed_gb", "achievable"] ∧
    (optimize_memory_allocation exM exS exP 0).map Prod.fst =
      ["recommended_memory_gb", "current_hit_rate", "achievable"] :=
  ⟨(C9_result_field_sets.2 exM exS exP (95/100)).1
      (by rw [detailed_hit_rate_eval_ex]; norm_num),
   (C9_result_field_sets.2 exM exS exP 0).2
      (by rw [detailed_hit_rate_eval_ex]; norm_num)⟩

/-- Claim C3: `calculate_max_cached_tokens` returns 0 exactly on the
starved inputs `available_for_cache = available·2^30 − model·2^30·1.2 ≤ 0`
(equivalently `model_size_gb · 1.2 ≥ available_memory_gb`), otherwise the
truncated quotient `available_for_cache / bytes_per_token`; and whenever it
returns 0, `calculate_conversation_hit_rate` short-circuits to all-zero
results. -/
theorem C3_max_cached_tokens_spec (m : ModelConfig) (s : SystemConfig)
    (c : ConversationPattern) :
    (s.available_memory_gb * 2 ^ 30 - m.model_size_gb * 2 ^ 30 * (12/10) ≤ 0 →
      calculate_max_cached_tokens m s = 0) ∧
    (s.available_memory_gb * 2 ^ 30 - m.model_size_gb * 2 ^ 30 * (12/10) ≤ 0 ↔
      m.model_size_gb * (12/10) ≥ s.available_memory_gb) ∧
    (0 < s.available_memory_gb * 2 ^ 30 - m.model_size_gb * 2 ^ 30 * (12/10) →
      calculate_max_cached_tokens m s =
        pyint ((s.available_memory_gb * 2 ^ 30 -
            m.model_size_gb * 2 ^ 30 * (12/10)) /
          calculate_kvcache_memory_per_token m)) ∧
    (calculate_max_cached_tokens m s = 0 →
      calculate_conversation_hit_rate m s c =
        { hit_rate := 0, avg_cached_conversations := 0,
          cache_utilization := 0, max_cached_tokens := 0,
          active_conversations := 0 }) := by
  have e30 : ((1024:ℚ)) ^ 3 = 2 ^ 30 := by norm_num
  refine ⟨fun h => ?_, ⟨fun h => ?_, fun h => ?_⟩, fun h => ?_, fun h => ?_⟩
  · simp only [calculate_max_cached_tokens, e30]
    rw [if_pos h]
  · nlinarith
  · nlinarith
  · simp only [calculate_max_cached_tokens, e30]
    rw [if_neg (not_le.mpr h)]
  · simp only [calculate_conversation_hit_rate, h]
    norm_num

/-- Claim C3 witness: the starved configuration (60 GB available, 64 GB
model) yields 0 cached tokens and an all-zero hit-rate result; the example
configuration takes the truncation branch and yields 16384 tokens. -/
theorem C3_witness :
    calculate_max_cached_tokens starvedM starvedS = 0 ∧
    calculate_conversation_hit_rate starvedM starvedS exP =
      { hit_rate := 0, avg_cached_conversations := 0, cache_utilization := 0,
        max_cached_tokens := 0, active_conversations := 0 } ∧
    calculate_max_cached_tokens exM exS = 16384 := by
  have hz : calculate_max_cached_tokens starvedM starvedS = 0 :=
    (C3_max_cached_tokens_spec starvedM starvedS exP).1
      (by norm_num [starvedM, starvedS])
  refine ⟨hz, (C3_max_cached_tokens_spec starvedM starvedS exP).2.2.2 hz, ?_⟩
  rw [(C3_max_cached_tokens_spec exM exS exP).2.2.1 (by norm_num [exM, exS])]
  show pyint ((20 * 2 ^ 30 - 10 * 2 ^ 30 * (12 / 10)) /
    calculate_kvcache_memory_per_token ⟨32, 32, 32, 128, .FP16, .FP16, 10⟩) =
    16384
  rw [memory_per_token_FP16]
  norm_num [pyint]

end KVCalc

namespace KVCalc

/-- The claim's closed form for the optimizer's below-target recommendation:
`(active_conversations * target * avg_conversation_length *
avg_sequence_length * bytes_per_token) / 2^30 + model_size_gb * 1.2`, with
`active_conversations = arrival_rate * length * interval`; stated separately
so the theorem compares the code's branch against this form. -/
def spec_recommended_memory_gb (m : ModelConfig) (c : ConversationPattern)
    (t : ℚ) : ℚ :=
  c.conversation_arrival_rate * c.avg_conversation_length *
        c.within_conversation_interval * t * c.avg_conversation_length *
        (c.avg_sequence_length : ℚ) * calculate_kvcache_memory_per_token m /
      2 ^ 30 +
    m.model_size_gb * (12/10)

/-- Claim C4: when the current hit rate is strictly below the target,
`optimize_memory_allocation` returns the dictionary with
`recommended_memory_gb` equal to the claim's closed form,
`additional_memory_needed_gb = max 0 (recommended − available)`, and
`achievable = true` exactly when `recommended ≤ 2 × available`. -/
theorem C4_optimizer_below_target (m : ModelConfig) (s : SystemConfig)
    (c : ConversationPattern) (t : ℚ)
    (hl : 0 < m.num_layers) (hah : 0 < m.num_attention_heads)
    (hkh : 0 < m.num_kv_heads) (hhd : 0 < m.head_dim)
    (hms : 0 < m.model_size_gb) (hL : 1 ≤ c.avg_conversation_length)
    (hiv : 0 < c.within_conversation_interval)
    (hsq : 0 < c.avg_sequence_length)
    (har : 0 ≤ c.conversation_arrival_rate)
    (h : (calculate_detailed_metrics m s c).hit_rate < t) :
    optimize_memory_allocation m s c t =
      [("recommended_memory_gb", .num (spec_recommended_memory_gb m c t)),
       ("current_hit_rate", .num (calculate_detailed_metrics m s c).hit_rate),
       ("target_hit_rate", .num t),
       ("additional_memory_needed_gb",
         .num (max 0 (spec_recommended_memory_gb m c t -
           s.available_memory_gb))),
       ("achievable", .bool (decide (spec_recommended_memory_gb m c t ≤
         s.available_memory_gb * 2)))] ∧
    (List.lookup "achievable" (optimize_memory_allocation m s c t) =
        some (.bool true) ↔
      spec_recommended_memory_gb m c t ≤ 2 * s.available_memory_gb) := by
  have key : c.conversation_arrival_rate *
        (c.avg_conversation_length * c.within_conversation_interval) * t *
        (c.avg_conversation_length * (c.avg_sequence_length : ℚ)) *
        calculate_kvcache_memory_per_token m / 1024 ^ 3 +
      m.model_size_gb * (12/10) = spec_recommended_memory_gb m c t := by
    have e30 : ((1024:ℚ)) ^ 3 = 2 ^ 30 := by norm_num
    simp only [spec_recommended_memory_gb]
    rw [e30]
    ring
  have hdict : optimize_memory_allocation m s c t =
      [("recommended_memory_gb", .num (spec_recommended_memory_gb m c t)),
       ("current_hit_rate", .num (calculate_detailed_metrics m s c).hit_rate),
       ("target_hit_rate", .num t),
       ("additional_memory_needed_gb",
         .num (max 0 (spec_recommended_memory_gb m c t -
           s.available_memory_gb))),
       ("achievable", .bool (decide (spec_recommended_memory_gb m c t ≤
         s.available_memory_gb * 2)))] := by
    simp only [optimize_memory_allocation]
    rw [if_neg (not_le.mpr h), key]
  refine ⟨hdict, ?_⟩
  rw [hdict]
  have hlook : List.lookup "achievable"
      [("recommended_memory_gb",
         PyVal.num (spec_recommended_memory_gb m c t)),
       ("current_hit_rate",
         PyVal.num (calculate_detailed_metrics m s c).hit_rate),
       ("target_hit_rate", PyVal.num t),
       ("additional_memory_needed_gb",
         PyVal.num (max 0 (spec_recommended_memory_gb m c t -
           s.available_memory_gb))),
       ("achievable", PyVal.bool (decide (spec_recommended_memory_gb m c t ≤
         s.available_memory_gb * 2)))] =
      some (PyVal.bool (decide (spec_recommended_memory_gb m c t ≤
        s.available_memory_gb * 2))) := rfl
  rw [hlook]
  simp only [Option.some.injEq, PyVal.bool.injEq, decide_eq_true_eq]
  constructor <;> intro hle <;> linarith

/-- Claim C4 witness: on the example configuration with target 95/100 the
current hit rate 9/10 is below target, and the optimizer recommends
8519/512 GB (≈ 16.64), no additional memory beyond the configured 20 GB, and
reports the target achievable. -/
theorem C4_witness :
    optimize_memory_allocation exM exS exP (95/100) =
      [("recommended_memory_gb", PyVal.num (8519/512)),
       ("current_hit_rate", PyVal.num (9/10)),
       ("target_hit_rate", PyVal.num (95/100)),
       ("additional_memory_needed_gb", PyVal.num 0),
       ("achievable", PyVal.bool true)] := by
  have h := (C4_optimizer_below_target exM exS exP (95/100)
    (by norm_num [exM]) (by norm_num [exM]) (by norm_num [exM])
    (by norm_num [exM]) (by norm_num [exM]) (by norm_num [exP])
    (by norm_num [exP]) (by norm_num [exP]) (by norm_num [exP])
    (by rw [detailed_hit_rate_eval_ex]; norm_num)).1
  rw [h, detailed_hit_rate_eval_ex]
  have hs : spec_recommended_memory_gb exM exP (95/100) = 8519/512 := by
    show spec_recommended_memory_gb ⟨32, 32, 32, 128, .FP16, .FP16, 10⟩
      ⟨10, 1, 1, 100⟩ (95/100) = 8519/512
    simp only [spec_recommended_memory_gb, memory_per_token_FP16]
    norm_num
  rw [hs]
  norm_num [exS, max_def]

end KVCalc

namespace KVCalc

/-- Claim C1: on a validated configuration with a positive cached-token
budget, the hit rate is `1 − 1/avg_conversation_length` when
`active_conversations ≤ max_cached_conversations` and
`(1 − 1/avg_conversation_length) · (max_cached_conversations /
active_conversations)` otherwise, with
`active_conversations = arrival_rate · length · interval` and
`max_cached_conversations = max_cached_tokens / (length · sequence_length)`;
and `avg_cached_conversations = min active max_cached`. -/
theorem C1_conversation_hit_rate_model (m : ModelConfig) (s : SystemConfig)
    (c : ConversationPattern)
    (hl : 0 < m.num_layers) (hah : 0 < m.num_attention_heads)
    (hkh : 0 < m.num_kv_heads) (hhd : 0 < m.head_dim)
    (hms : 0 < m.model_size_gb) (hL : 1 ≤ c.avg_conversation_length)
    (hiv : 0 < c.within_conversation_interval)
    (hsq : 0 < c.avg_sequence_length)
    (har : 0 ≤ c.conversation_arrival_rate)
    (hmct : 0 < calculate_max_cached_tokens m s) :
    (calculate_conversation_hit_rate m s c).hit_rate =
      (if c.conversation_arrival_rate * c.avg_conversation_length *
            c.within_conversation_interval ≤
          (calculate_max_cached_tokens m s : ℚ) /
            (c.avg_conversation_length * (c.avg_sequence_length : ℚ)) then
         1 - 1 / c.avg_conversation_length
       else
         (1 - 1 / c.avg_conversation_length) *
           ((calculate_max_cached_tokens m s : ℚ) /
               (c.avg_conversation_length * (c.avg_sequence_length : ℚ)) /
             (c.conversation_arrival_rate * c.avg_conversation_length *
               c.within_conversation_interval))) ∧
    (calculate_conversation_hit_rate m s c).avg_cached_conversations =
      min
        (c.conversation_arrival_rate * c.avg_conversation_length *
          c.within_conversation_interval)
        ((calculate_max_cached_tokens m s : ℚ) /
          (c.avg_conversation_length * (c.avg_sequence_length : ℚ))) := by
  have hL0 : (0:ℚ) < c.avg_conversation_length := lt_of_lt_of_le one_pos hL
  have hsqQ : (0:ℚ) < (c.avg_sequence_length : ℚ) := by exact_mod_cast hsq
  have hmctQ : (0:ℚ) < (calculate_max_cached_tokens m s : ℚ) := by
    exact_mod_cast hmct
  have htpc : (0:ℚ) < c.avg_conversation_length *
      (c.avg_sequence_length : ℚ) := mul_pos hL0 hsqQ
  have hmcc : (0:ℚ) < (calculate_max_cached_tokens m s : ℚ) /
      (c.avg_conversation_length * (c.avg_sequence_length : ℚ)) :=
    div_pos hmctQ htpc
  have hia : (0:ℚ) ≤ 1 - 1 / c.avg_conversation_length := by
    have h1 : 1 / c.avg_conversation_length ≤ 1 := by
      rw [div_le_one hL0]; exact hL
    linarith
  have hib : 1 - 1 / c.avg_conversation_length ≤ 1 := by
    have h1 : (0:ℚ) ≤ 1 / c.avg_conversation_length := by positivity
    linarith
  have hassoc : c.conversation_arrival_rate *
      (c.avg_conversation_length * c.within_conversation_interval) =
      c.conversation_arrival_rate * c.avg_conversation_length *
        c.within_conversation_interval := (mul_assoc _ _ _).symm
  simp only [calculate_conversation_hit_rate]
  rw [if_neg (not_le.mpr hmct)]
  dsimp only
  rw [hassoc]
  refine ⟨?_, rfl⟩
  by_cases hc : c.conversation_arrival_rate * c.avg_conversation_length *
      c.within_conversation_interval ≤
      (calculate_max_cached_tokens m s : ℚ) /
        (c.avg_conversation_length * (c.avg_sequence_length : ℚ))
  · rw [if_pos hc, min_eq_right hib, max_eq_right hia]
  · have hgt := not_le.mp hc
    have hact : (0:ℚ) < c.conversation_arrival_rate *
        c.avg_conversation_length * c.within_conversation_interval :=
      lt_trans hmcc hgt
    have hr1 : (calculate_max_cached_tokens m s : ℚ) /
          (c.avg_conversation_length * (c.avg_sequence_length : ℚ)) /
        (c.conversation_arrival_rate * c.avg_conversation_length *
          c.within_conversation_interval) ≤ 1 :=
      le_of_lt ((div_lt_one hact).mpr hgt)
    have hr0 : (0:ℚ) ≤ (calculate_max_cached_tokens m s : ℚ) /
          (c.avg_conversation_length * (c.avg_sequence_length : ℚ)) /
        (c.conversation_arrival_rate * c.avg_conversation_length *
          c.within_conversation_interval) :=
      le_of_lt (div_pos hmcc hact)
    have hm1 : (1 - 1 / c.avg_conversation_length) *
        ((calculate_max_cached_tokens m s : ℚ) /
            (c.avg_conversation_length * (c.avg_sequence_length : ℚ)) /
          (c.conversation_arrival_rate * c.avg_conversation_length *
            c.within_conversation_interval)) ≤ 1 :=
      mul_le_one₀ hib hr0 hr1
    have hm0 : (0:ℚ) ≤ (1 - 1 / c.avg_conversation_length) *
        ((calculate_max_cached_tokens m s : ℚ) /
            (c.avg_conversation_length * (c.avg_sequence_length : ℚ)) /
          (c.conversation_arrival_rate * c.avg_conversation_length *
            c.within_conversation_interval)) :=
      mul_nonneg hia hr0
    rw [if_neg hc, min_eq_right hm1, max_eq_right hm0]

/-- Claim C1 witness: on the example configuration
(`max_cached_tokens = 16384 > 0`, active = 10 ≤ 16384/1000) the hit rate is
`1 − 1/10 = 9/10` and 10 conversations are cached on average. -/
theorem C1_witness :
    (calculate_conversation_hit_rate exM exS exP).hit_rate = 9/10 ∧
    (calculate_conversation_hit_rate exM exS exP).avg_cached_conversations =
      10 := by
  have h := C1_conversation_hit_rate_model exM exS exP
    (by norm_num [exM]) (by norm_num [exM]) (by norm_num [exM])
    (by norm_num [exM]) (by norm_num [exM]) (by norm_num [exP])
    (by norm_num [exP]) (by norm_num [exP]) (by norm_num [exP])
    (by rw [max_cached_tokens_exM_exS]; norm_num)
  constructor
  · rw [h.1, max_cached_tokens_exM_exS]
    norm_num [exP]
  · rw [h.2, max_cached_tokens_exM_exS]
    norm_num [exP, min_def]

/-- Claim C7: on a validated configuration the returned hit rate and cache
utilization both lie in `[0, 1]`, and the utilization is
`min (active_conversations / max_cached_conversations) 1` when
`max_cached_conversations > 0` and `0` otherwise. -/
theorem C7_bounds_and_utilization (m : ModelConfig) (s : SystemConfig)
    (c : ConversationPattern)
    (hl : 0 < m.num_layers) (hah : 0 < m.num_attention_heads)
    (hkh : 0 < m.num_kv_heads) (hhd : 0 < m.head_dim)
    (hms : 0 < m.model_size_gb) (hL : 1 ≤ c.avg_conversation_length)
    (hiv : 0 < c.within_conversation_interval)
    (hsq : 0 < c.avg_sequence_length)
    (har : 0 ≤ c.conversation_arrival_rate) :
    0 ≤ (calculate_conversation_hit_rate m s c).hit_rate ∧
    (calculate_conversation_hit_rate m s c).hit_rate ≤ 1 ∧
    0 ≤ (calculate_conversation_hit_rate m s c).cache_utilization ∧
    (calculate_conversation_hit_rate m s c).cache_utilization ≤ 1 ∧
    (calculate_conversation_hit_rate m s c).cache_utilization =
      (if 0 < (calculate_max_cached_tokens m s : ℚ) /
            (c.avg_conversation_length * (c.avg_sequence_length : ℚ)) then
         min ((c.conversation_arrival_rate * c.avg_conversation_length *
               c.within_conversation_interval) /
             ((calculate_max_cached_tokens m s : ℚ) /
               (c.avg_conversation_length * (c.avg_sequence_length : ℚ)))) 1
       else 0) := by
  have hL0 : (0:ℚ) < c.avg_conversation_length := lt_of_lt_of_le one_pos hL
  have hsqQ : (0:ℚ) < (c.avg_sequence_length : ℚ) := by exact_mod_cast hsq
  have htpc : (0:ℚ) < c.avg_conversation_length *
      (c.avg_sequence_length : ℚ) := mul_pos hL0 hsqQ
  have hassoc : c.conversation_arrival_rate *
      (c.avg_conversation_length * c.within_conversation_interval) =
      c.conversation_arrival_rate * c.avg_conversation_length *
        c.within_conversation_interval := (mul_assoc _ _ _).symm
  by_cases hz : calculate_max_cached_tokens m s ≤ 0
  · have hmQ : (calculate_max_cached_tokens m s : ℚ) ≤ 0 := by
      exact_mod_cast hz
    have hdivnp : (calculate_max_cached_tokens m s : ℚ) /
        (c.avg_conversation_length * (c.avg_sequence_length : ℚ)) ≤ 0 :=
      div_nonpos_iff.mpr (Or.inr ⟨hmQ, le_of_lt htpc⟩)
    simp only [calculate_conversation_hit_rate]
    rw [if_pos hz]
    dsimp only
    exact ⟨le_refl 0, zero_le_one, le_refl 0, zero_le_one,
      by rw [if_neg (not_lt.mpr hdivnp)]⟩
  · have hmctQ : (0:ℚ) < (calculate_max_cached_tokens m s : ℚ) := by
      exact_mod_cast not_le.mp hz
    have hmcc : (0:ℚ) < (calculate_max_cached_tokens m s : ℚ) /
        (c.avg_conversation_length * (c.avg_sequence_length : ℚ)) :=
      div_pos hmctQ htpc
    have hact0 : (0:ℚ) ≤ c.conversation_arrival_rate *
        c.avg_conversation_length * c.within_conversation_interval := by
      have := mul_pos hL0 hiv
      nlinarith
    simp only [calculate_conversation_hit_rate]
    rw [if_neg hz]
    dsimp only
    rw [hassoc]
    refine ⟨le_max_left _ _, max_le zero_le_one (min_le_left _ _), ?_, ?_, rfl⟩
    · rw [if_pos hmcc]
      exact le_min (div_nonneg hact0 (le_of_lt hmcc)) zero_le_one
    · rw [if_pos hmcc]
      exact min_le_right _ _

/-- Claim C7 witness: on the example configuration the hit rate and the
cache utilization are both in `[0, 1]`, and the utilization evaluates to
`min (10 / (16384/1000)) 1 = 625/1024`. -/
theorem C7_witness :
    0 ≤ (calculate_conversation_hit_rate exM exS exP).hit_rate ∧
    (calculate_conversation_hit_rate exM exS exP).hit_rate ≤ 1 ∧
    0 ≤ (calculate_conversation_hit_rate exM exS exP).cache_utilization ∧
    (calculate_conversation_hit_rate exM exS exP).cache_utilization ≤ 1 ∧
    (calculate_conversation_hit_rate exM exS exP).cache_utilization =
      625/1024 := by
  have h := C7_bounds_and_utilization exM exS exP
    (by norm_num [exM]) (by norm_num [exM]) (by norm_num [exM])
    (by norm_num [exM]) (by norm_num [exM]) (by norm_num [exP])
    (by norm_num [exP]) (by norm_num [exP]) (by norm_num [exP])
  refine ⟨h.1, h.2.1, h.2.2.1, h.2.2.2.1, (h.2.2.2.2).trans ?_⟩
  rw [max_cached_tokens_exM_exS]
  norm_num [exP, min_def]

end KVCalc
